import Mathlib

/-!
# Verification of the document-conversion pipeline (`src/app.py`)

Shallow embedding of the conversion logic of `DocumentConverter` and the
surrounding batch-processing functions. External tools (pandoc, wkhtmltopdf,
catdoc, online services, the docx library) are modelled by the observable
outcome of one invocation: whether the call timed out, its exit code, its
stderr text, and whether/with what size the requested output file exists
afterwards. Strategy bodies that only shell out are embedded at that level;
strategies whose outcome depends on opaque document contents are abstracted
as the `(success, message)` pair they return, which is all the dispatcher
ever inspects.
-/

namespace Conversor

/-- Observable outcome of running one external tool (`subprocess.run` with a
timeout): whether the call raised `TimeoutExpired`, the exit code and stderr
otherwise, and the state of the requested output file afterwards. -/
structure ExtRunOutcome where
  timedOut : Bool
  returncode : Int
  stderr : String
  outputExists : Bool
  outputSize : Nat
deriving Repr, DecidableEq

/-- Result of `_create_enhanced_pdf`: the boolean it returns, plus whether the
intermediate HTML temp file (created with `delete=False`) was deleted. -/
structure PdfCreateResult where
  success : Bool
  tempHtmlDeleted : Bool
deriving Repr, DecidableEq

/-- Embedding of `_create_enhanced_pdf` (app.py lines 427-547) after the HTML temp file has
been written: it runs `wkhtmltopdf` with `timeout=30`. If `subprocess.run`
raises (modelled: `TimeoutExpired`), control jumps to the handler at line 545
which returns `False`; the `os.unlink(html_path)` at lines 540-541 is skipped,
so the temp HTML survives. Otherwise it unlinks the temp file and returns
`result.returncode == 0 and output_path.exists()` (line 543) — note the
output file's size is never consulted. -/
def create_enhanced_pdf (r : ExtRunOutcome) : PdfCreateResult :=
  if r.timedOut then
    { success := false, tempHtmlDeleted := false }
  else
    { success := r.returncode == 0 && r.outputExists, tempHtmlDeleted := true }

/-- Embedding of `_convert_with_pandoc_wkhtml` (app.py lines 167-186): runs pandoc with
`timeout=30`; a timeout is caught and reported as a soft failure; otherwise
success is `result.returncode == 0 and output_path.exists()` (line 178),
again without any size check. -/
def convert_with_pandoc_wkhtml (r : ExtRunOutcome) : Bool × String :=
  if r.timedOut then
    (false, "Timeout en conversión con Pandoc")
  else if r.returncode == 0 && r.outputExists then
    (true, "Conversión exitosa con Pandoc")
  else
    (false, "Pandoc error: " ++ r.stderr)

/-- Abstract outcomes of the per-file conversion strategies for one input
file. Each field is the `(success, message)` pair the corresponding
`_convert_*` method of `DocumentConverter` returns for this file; every
such method catches its own exceptions and always returns a pair, so this
is exactly the interface `convert_document` observes. -/
structure ConvEnv where
  pandocWkhtml : Bool × String
  pythonDocx : Bool × String
  docOnline : Bool × String
  docAdvanced : Bool × String
  docDocxFallback : Bool × String
  docFallback : Bool × String
deriving Repr, DecidableEq

/-- The `methods` list of `_convert_docx` (app.py lines 127-130):
`[_convert_with_pandoc_wkhtml, _convert_with_python_docx]`. -/
def docx_methods (env : ConvEnv) : List (Bool × String) :=
  [env.pandocWkhtml, env.pythonDocx]

/-- The `methods` list of `_convert_doc_enhanced` (app.py lines 141-146):
online service, advanced text extraction, docx-library fallback,
informational fallback, in that order. -/
def doc_methods (env : ConvEnv) : List (Bool × String) :=
  [env.docOnline, env.docAdvanced, env.docDocxFallback, env.docFallback]

/-- The `for method in methods` loop shared by `_convert_docx` (lines
132-137) and `_convert_doc_enhanced` (lines 148-153): invoke the methods in
order, return the first successful `(success, message)` pair, or
`(False, failMsg)` when every method failed. The second component counts
how many methods were actually invoked. -/
def run_methods : List (Bool × String) → String → (Bool × String) × Nat
  | [], failMsg => ((false, failMsg), 0)
  | m :: rest, failMsg =>
    if m.1 then (m, 1)
    else
      let r := run_methods rest failMsg
      (r.1, r.2 + 1)

/-- Embedding of `_convert_docx` (app.py lines 125-137). -/
def convert_docx (env : ConvEnv) : (Bool × String) × Nat :=
  run_methods (docx_methods env) "Todos los métodos de conversión fallaron"

/-- Embedding of `_convert_doc_enhanced` (app.py lines 139-153). -/
def convert_doc_enhanced (env : ConvEnv) : (Bool × String) × Nat :=
  run_methods (doc_methods env)
    "No se pudo convertir el archivo DOC. Intente guardarlo como DOCX."

/-- Embedding of `_convert_rtf` (lines 155-157): directly returns the result of
`_convert_with_pandoc_wkhtml`; exactly one strategy is invoked. -/
def convert_rtf (env : ConvEnv) : (Bool × String) × Nat :=
  (env.pandocWkhtml, 1)

/-- Embedding of `_convert_txt` (lines 159-161): same single pandoc strategy. -/
def convert_txt (env : ConvEnv) : (Bool × String) × Nat :=
  (env.pandocWkhtml, 1)

/-- Embedding of `_convert_odt` (lines 163-165): same single pandoc strategy. -/
def convert_odt (env : ConvEnv) : (Bool × String) × Nat :=
  (env.pandocWkhtml, 1)

/-- An input path as `pathlib.Path` decomposes it (`parent`, `stem`,
`suffix`), together with the two facts `convert_document` reads from the
filesystem: `Path.exists()` and `Path.stat().st_size`. -/
structure FileInfo where
  parent : String
  stem : String
  suffix : String
  fileExists : Bool
  size : Nat
deriving Repr, DecidableEq

/-- Python's `str.lower()` as used on extensions: lowercase every
character. (Stated over the string's character list so that it reduces in
the kernel; extensionally the same map over characters.) -/
def lower (s : String) : String := String.mk (s.data.map Char.toLower)

/-- Path join: `Path(parent) / name`. -/
def joinPath (parent name : String) : String := parent ++ "/" ++ name

/-- Full path `str(input_path)` of a file: the full path of a `FileInfo`. -/
def inputPathStr (f : FileInfo) : String := joinPath f.parent (f.stem ++ f.suffix)

/-- Size cap `self.max_file_size = 200 * 1024 * 1024` (app.py line 30). -/
def max_file_size : Nat := 200 * 1024 * 1024

/-- The keys of `self.supported_formats` (app.py lines 22-28). -/
def supported_formats_keys : List String :=
  [".doc", ".docx", ".rtf", ".txt", ".odt"]

/-- What `convert_document` returns, extended with a count of how many
conversion strategies were invoked on the way (0 on every early
rejection). The embedded `convert_document` performs no filesystem action
itself: reads of `exists`/`size` are the `FileInfo` fields, and all writes
happen inside the strategies, so `invoked = 0` means the filesystem was not
touched beyond the rejection checks. -/
structure ConvOutcome where
  success : Bool
  message : String
  pdfPath : String
  invoked : Nat
deriving Repr, DecidableEq

/-- Lines 113-118 of `convert_document`: `(True, message, str(output_path))`
when the dispatched routine succeeded, `(False, message, "")` otherwise. -/
def pack (r : (Bool × String) × Nat) (outPath : String) : ConvOutcome :=
  if r.1.1 then ⟨true, r.1.2, outPath, r.2⟩ else ⟨false, r.1.2, "", r.2⟩

/-- Lines 98-111 of `convert_document`: the if/elif chain on
`extension = input_path.suffix.lower()`, selecting the extension-specific
routine, with the `"Formato no soportado"` result in the final `else`. -/
def dispatch (env : ConvEnv) (ext : String) (outPath : String) : ConvOutcome :=
  if ext = ".docx" then pack (convert_docx env) outPath
  else if ext = ".doc" then pack (convert_doc_enhanced env) outPath
  else if ext = ".rtf" then pack (convert_rtf env) outPath
  else if ext = ".txt" then pack (convert_txt env) outPath
  else if ext = ".odt" then pack (convert_odt env) outPath
  else ⟨false, "Formato no soportado: " ++ ext, "", 0⟩

/-- Embedding of `convert_document` (app.py lines 80-123): missing-file guard, size
guard, derivation of the output path (`parent/stem.pdf` when none is
requested), dispatch on `input_path.suffix.lower()`, and packaging of the
dispatched `(success, message)` into the `(éxito, mensaje, ruta_pdf)`
triple — `str(output_path)` on success, `""` on failure. The dispatched
strategy methods never raise (each catches its own exceptions), so the
`except` arm at lines 120-123 is unreachable in this model. -/
def convert_document (env : ConvEnv) (f : FileInfo) (output_path : Option String) :
    ConvOutcome :=
  if f.fileExists = false then
    ⟨false, "Archivo no encontrado: " ++ inputPathStr f, "", 0⟩
  else if max_file_size < f.size then
    ⟨false, "Archivo demasiado grande: " ++ inputPathStr f, "", 0⟩
  else
    dispatch env (lower f.suffix)
      (output_path.getD (joinPath f.parent (f.stem ++ ".pdf")))

/-- One filesystem entry of the extracted archive tree, as `rglob('*')`
yields it: its chain of subdirectory names below the extraction root
(`[]` for an entry at the archive root), its `stem` and `suffix`, whether
it is a regular file, and its size once extracted. -/
structure ZipEntry where
  dirs : List String
  stem : String
  suffix : String
  isFile : Bool
  size : Nat
deriving Repr, DecidableEq

/-- The loop condition at app.py line 580:
`file_path.is_file() and file_path.suffix.lower() in self.supported_formats`.
It depends only on `isFile` and the lowercased suffix — never on `dirs`. -/
def entrySelected (e : ZipEntry) : Bool :=
  e.isFile && supported_formats_keys.contains (lower e.suffix)

/-- Base name `file_path.name` of an archive entry: base name without any directory part. -/
def zipEntryName (e : ZipEntry) : String := e.stem ++ e.suffix

/-- The `FileInfo` of an extracted entry: its parent directory is the
extraction root followed by the entry's subdirectory chain; it exists and
has the recorded size. -/
def entryFileInfo (tempDir : String) (e : ZipEntry) : FileInfo :=
  { parent := e.dirs.foldl joinPath tempDir
    stem := e.stem
    suffix := e.suffix
    fileExists := true
    size := e.size }

/-- Python-dict assignment `results[k] = v` on an insertion-ordered map:
overwrite in place when the key is present, append otherwise. -/
def dictInsert (m : List (String × ConvOutcome)) (k : String) (v : ConvOutcome) :
    List (String × ConvOutcome) :=
  if m.any (fun p => p.1 == k) then
    m.map (fun p => if p.1 == k then (k, v) else p)
  else
    m ++ [(k, v)]

/-- The keys of the results dict, in insertion order. -/
def dictKeys (m : List (String × ConvOutcome)) : List String := m.map Prod.fst

/-- Body of the `rglob` loop of `process_zip_folder` (app.py lines
579-588): for a selected entry, compute the output path (in `output_dir`
when given, else next to the extracted file) and store
`convert_document`'s triple under the entry's base name. -/
def zipStep (tempDir : String) (envOf : ZipEntry → ConvEnv)
    (output_dir : Option String) (results : List (String × ConvOutcome))
    (e : ZipEntry) : List (String × ConvOutcome) :=
  if entrySelected e then
    let fi := entryFileInfo tempDir e
    let outPath :=
      match output_dir with
      | some d => joinPath d (e.stem ++ ".pdf")
      | none => joinPath fi.parent (e.stem ++ ".pdf")
    dictInsert results (zipEntryName e) (convert_document (envOf e) fi (some outPath))
  else
    results

/-- Embedding of `process_zip_folder` (app.py lines 569-594): extract the archive into a
temporary directory and walk the whole tree with `rglob('*')` converting
every selected entry; when opening or extracting the archive raises
(`extractErr = some msg`, e.g. a corrupt ZIP), the handler at lines 590-592
stores a single `'ZIP Processing'` failure entry in the still-empty dict.
`envOf` gives the strategy outcomes for each extracted file. -/
def process_zip_folder (tempDir : String) (envOf : ZipEntry → ConvEnv)
    (entries : List ZipEntry) (output_dir : Option String)
    (extractErr : Option String) : List (String × ConvOutcome) :=
  match extractErr with
  | some msg =>
    dictInsert [] "ZIP Processing" ⟨false, "Error procesando ZIP: " ++ msg, "", 0⟩
  | none => entries.foldl (zipStep tempDir envOf output_dir) []

/-- The download control a batch-processing function renders. Each path
renders at most one control, held in a single `st.download_button` call. -/
inductive Download where
  | noControl
  | singleFile
  | bundleZip
deriving Repr, DecidableEq

/-- Counter `successful_conversions` / `successful`: how many per-file results in a
batch succeeded. -/
def successCount (results : List ConvOutcome) : Nat :=
  results.countP (fun r => r.success)

/-- Download control of `process_uploaded_files` (app.py lines 798-845):
inside `if successful_conversions > 0`, exactly one success renders the
single-file `st.download_button`, otherwise the ZIP bundle button; with
zero successes no download section is rendered. -/
def process_uploaded_files_download (results : List ConvOutcome) : Download :=
  if 0 < successCount results then
    if successCount results = 1 then Download.singleFile else Download.bundleZip
  else Download.noControl

/-- Overall failure signal of `process_uploaded_files` (lines 848-859):
`st.error("😞 No se pudo convertir ningún archivo")` exactly when no file
converted. -/
def process_uploaded_files_failure (results : List ConvOutcome) : Bool :=
  successCount results = 0

/-- Download control of `process_zip_file` (app.py lines 890-918): whenever
`successful > 0` it builds `documentos_convertidos.zip` and renders the one
ZIP bundle button — there is no single-file branch on this path. -/
def process_zip_file_download (results : List ConvOutcome) : Download :=
  if 0 < successCount results then Download.bundleZip else Download.noControl

/-- Overall failure signal of `process_zip_file` (lines 917-918):
`st.error("No se pudo convertir ningún archivo del ZIP")` exactly when no
entry converted. -/
def process_zip_file_failure (results : List ConvOutcome) : Bool :=
  successCount results = 0

/-- Action of one dict assignment on the key sequence alone: keep the keys
unchanged when the key is already present, append it otherwise. -/
def keyStep (ks : List String) (k : String) : List String :=
  if ks.any (fun x => x == k) then ks else ks ++ [k]

/-! ## Helper lemmas -/

theorem pack_pdfPath (r : (Bool × String) × Nat) (op : String) :
    (pack r op).pdfPath = if (pack r op).success then op else "" := by
  unfold pack
  split <;> simp

theorem dispatch_pdfPath (env : ConvEnv) (ext : String) (op : String) :
    (dispatch env ext op).pdfPath = if (dispatch env ext op).success then op else "" := by
  unfold dispatch
  by_cases h1 : ext = ".docx"
  · rw [if_pos h1]; exact pack_pdfPath _ _
  rw [if_neg h1]
  by_cases h2 : ext = ".doc"
  · rw [if_pos h2]; exact pack_pdfPath _ _
  rw [if_neg h2]
  by_cases h3 : ext = ".rtf"
  · rw [if_pos h3]; exact pack_pdfPath _ _
  rw [if_neg h3]
  by_cases h4 : ext = ".txt"
  · rw [if_pos h4]; exact pack_pdfPath _ _
  rw [if_neg h4]
  by_cases h5 : ext = ".odt"
  · rw [if_pos h5]; exact pack_pdfPath _ _
  rw [if_neg h5]
  simp

theorem run_methods_first_success (ms : List (Bool × String)) (fm : String) :
    ∀ (i : Nat) (hi : i < ms.length),
      (ms.get ⟨i, hi⟩).1 = true →
      (∀ j (hj : j < ms.length), j < i → (ms.get ⟨j, hj⟩).1 = false) →
      run_methods ms fm = (ms.get ⟨i, hi⟩, i + 1) := by
  induction ms with
  | nil => intro i hi; exact absurd hi (Nat.not_lt_zero i)
  | cons m rest ih =>
    intro i hi hs hp
    cases i with
    | zero =>
      simp only [List.get] at hs
      simp [run_methods, hs]
    | succ i' =>
      have hm : m.1 = false := hp 0 (Nat.succ_pos _) (Nat.succ_pos _)
      have hi' : i' < rest.length := Nat.lt_of_succ_lt_succ hi
      have hrec := ih i' hi' (by simpa using hs)
        (fun j hj hji => by
          have := hp (j + 1) (Nat.succ_lt_succ hj) (Nat.succ_lt_succ hji)
          simpa using this)
      simp [run_methods, hm, hrec]

theorem any_fst_eq (m : List (String × ConvOutcome)) (k : String) :
    (dictKeys m).any (fun x => x == k) = m.any (fun p => p.1 == k) := by
  induction m with
  | nil => rfl
  | cons p rest ih =>
    simp only [dictKeys, List.map_cons, List.any_cons] at ih ⊢
    rw [ih]

theorem dictKeys_dictInsert (m : List (String × ConvOutcome)) (k : String)
    (v : ConvOutcome) : dictKeys (dictInsert m k v) = keyStep (dictKeys m) k := by
  unfold dictInsert keyStep
  by_cases hmem : m.any (fun p => p.1 == k) = true
  · rw [if_pos hmem, if_pos (by rw [any_fst_eq]; exact hmem)]
    simp only [dictKeys, List.map_map]
    refine List.map_congr_left (fun p _ => ?_)
    simp only [Function.comp_apply]
    by_cases hpk : p.1 = k
    · subst hpk; simp
    · simp [hpk]
  · rw [if_neg hmem, if_neg (by rw [any_fst_eq]; exact hmem)]
    simp [dictKeys]

theorem zip_fold_keys (tempDir : String) (envOf : ZipEntry → ConvEnv)
    (odir : Option String) (entries : List ZipEntry) :
    ∀ acc, dictKeys (entries.foldl (zipStep tempDir envOf odir) acc)
      = ((entries.filter entrySelected).map zipEntryName).foldl keyStep (dictKeys acc) := by
  induction entries with
  | nil => intro acc; rfl
  | cons e rest ih =>
    intro acc
    cases hsel : entrySelected e with
    | false =>
      simp only [List.foldl_cons]
      have hstep : zipStep tempDir envOf odir acc e = acc := by
        simp [zipStep, hsel]
      rw [hstep, ih acc]
      simp [List.filter_cons, hsel]
    | true =>
      simp only [List.foldl_cons]
      rw [ih (zipStep tempDir envOf odir acc e)]
      have hstep : dictKeys (zipStep tempDir envOf odir acc e)
          = keyStep (dictKeys acc) (zipEntryName e) := by
        simp [zipStep, hsel, dictKeys_dictInsert]
      rw [hstep]
      simp [List.filter_cons, hsel]

theorem process_zip_folder_keys (tempDir : String) (envOf : ZipEntry → ConvEnv)
    (entries : List ZipEntry) (odir : Option String) :
    dictKeys (process_zip_folder tempDir envOf entries odir none)
      = ((entries.filter entrySelected).map zipEntryName).foldl keyStep [] :=
  zip_fold_keys tempDir envOf odir entries []

/-! ## Claim theorems -/

/-- C1 (counterexample): the claim says `_create_enhanced_pdf` returns true
only when the produced output file is non-empty. But when `wkhtmltopdf`
completes with exit code 0 and the output file exists with size 0, the
check at app.py line 543 (`result.returncode == 0 and output_path.exists()`)
still returns `True`: the size is never consulted. -/
theorem claim_C1_counterexample :
    (create_enhanced_pdf
      { timedOut := false, returncode := 0, stderr := "",
        outputExists := true, outputSize := 0 }).success = true
  ∧ ({ timedOut := false, returncode := 0, stderr := "",
        outputExists := true, outputSize := 0 } : ExtRunOutcome).outputSize = 0 := by
  constructor <;> rfl

/-- C1 (amended): both `_create_enhanced_pdf` and
`_convert_with_pandoc_wkhtml` report success exactly when the tool did not
time out, returned exit status zero, and the output file exists afterwards;
the output file's size is not checked, so an empty output file still counts
as success. -/
theorem claim_C1 (r : ExtRunOutcome) :
    (create_enhanced_pdf r).success
      = (!r.timedOut && r.returncode == 0 && r.outputExists)
  ∧ (convert_with_pandoc_wkhtml r).1
      = (!r.timedOut && r.returncode == 0 && r.outputExists) := by
  obtain ⟨t, rc, s, ex, sz⟩ := r
  cases t with
  | true => exact ⟨rfl, rfl⟩
  | false =>
    refine ⟨rfl, ?_⟩
    unfold convert_with_pandoc_wkhtml
    by_cases h0 : rc = 0
    · cases ex <;> simp [h0]
    · simp [h0]

/-- C8: the claim (and spec §5) is right that no temporary file may survive
any exit path, and the code intends this (it has an explicit cleanup step,
lines 539-541), but the cleanup is not in a `finally`: when the
`wkhtmltopdf` invocation raises `TimeoutExpired` inside
`_create_enhanced_pdf`, control jumps from line 537 to the handler at line
545, skipping `os.unlink(html_path)`, and the intermediate HTML temp file
(created with `delete=False` at line 520) remains on disk. The theorem
evaluates the embedded function at that failing input, and in general shows
the temp file is deleted exactly on the non-raising paths. -/
theorem claim_C8 :
    (create_enhanced_pdf
      { timedOut := true, returncode := 0, stderr := "",
        outputExists := false, outputSize := 0 }).tempHtmlDeleted = false
  ∧ (create_enhanced_pdf
      { timedOut := true, returncode := 0, stderr := "",
        outputExists := false, outputSize := 0 }).success = false
  ∧ (∀ r : ExtRunOutcome, (create_enhanced_pdf r).tempHtmlDeleted = !r.timedOut) := by
  refine ⟨rfl, rfl, fun r => ?_⟩
  obtain ⟨t, rc, s, ex, sz⟩ := r
  cases t <;> rfl

/-- C9: `convert_document` always returns a well-shaped triple: on failure
the returned output path is the empty string, and on success it is exactly
the requested output path (or the derived `parent/stem.pdf` when none was
requested). -/
theorem claim_C9 (env : ConvEnv) (f : FileInfo) (out : Option String) :
    (convert_document env f out).pdfPath
      = if (convert_document env f out).success
        then out.getD (joinPath f.parent (f.stem ++ ".pdf"))
        else "" := by
  unfold convert_document
  by_cases h1 : f.fileExists = false
  · rw [if_pos h1]; simp
  rw [if_neg h1]
  by_cases h2 : max_file_size < f.size
  · rw [if_pos h2]; simp
  rw [if_neg h2]
  exact dispatch_pdfPath env (lower f.suffix) _

/-- C2: for every existing input file within the size cap whose lowercased
extension is not among the supported-format keys, `convert_document`
returns failure with the `"Formato no soportado"` message and invokes zero
conversion strategies. (An absent or oversized file is rejected by the
earlier guards of lines 84-88 with their own messages, which the spec
states separately; those guards also invoke no strategy.) -/
theorem claim_C2 (env : ConvEnv) (f : FileInfo) (out : Option String)
    (hex : f.fileExists = true) (hsz : f.size ≤ max_file_size)
    (hunsup : (lower f.suffix) ∉ supported_formats_keys) :
    (convert_document env f out).success = false
  ∧ (convert_document env f out).message
      = "Formato no soportado: " ++ (lower f.suffix)
  ∧ (convert_document env f out).invoked = 0 := by
  simp only [supported_formats_keys, List.mem_cons, List.mem_singleton,
    not_or, List.not_mem_nil] at hunsup
  obtain ⟨n1, n2, n3, n4, n5, -⟩ := hunsup
  simp [convert_document, dispatch, hex, Nat.not_lt.mpr hsz, n1, n2, n3, n4, n5]

/-- C2 witness: an existing 10-byte file with extension `.Xyz`. -/
theorem claim_C2_witness :
    (convert_document
      ⟨(false, ""), (false, ""), (false, ""), (false, ""), (false, ""), (false, "")⟩
      ⟨"/up", "a", ".Xyz", true, 10⟩ none).success = false
  ∧ (convert_document
      ⟨(false, ""), (false, ""), (false, ""), (false, ""), (false, ""), (false, "")⟩
      ⟨"/up", "a", ".Xyz", true, 10⟩ none).message = "Formato no soportado: .xyz"
  ∧ (convert_document
      ⟨(false, ""), (false, ""), (false, ""), (false, ""), (false, ""), (false, "")⟩
      ⟨"/up", "a", ".Xyz", true, 10⟩ none).invoked = 0 := by
  have h := claim_C2
    ⟨(false, ""), (false, ""), (false, ""), (false, ""), (false, ""), (false, "")⟩
    ⟨"/up", "a", ".Xyz", true, 10⟩ none rfl (by decide) (by decide)
  exact ⟨h.1, by rw [h.2.1]; decide, h.2.2⟩

/-- C3: for every existing input file whose size exceeds
`max_file_size = 200 MiB`, `convert_document` returns the distinct
`"Archivo demasiado grande"` failure before any strategy runs: the whole
returned outcome is the rejection triple, with an empty output path and
zero strategies invoked — and hence no filesystem action beyond the
`exists`/`stat` rejection checks, since in this embedding all writes happen
inside strategies. -/
theorem claim_C3 (env : ConvEnv) (f : FileInfo) (out : Option String)
    (hex : f.fileExists = true) (hsz : max_file_size < f.size) :
    convert_document env f out
      = ⟨false, "Archivo demasiado grande: " ++ inputPathStr f, "", 0⟩ := by
  simp [convert_document, hex, hsz]

/-- C3 witness: an existing file of `max_file_size + 1` bytes. -/
theorem claim_C3_witness :
    convert_document
      ⟨(false, ""), (false, ""), (false, ""), (false, ""), (false, ""), (false, "")⟩
      ⟨"/up", "b", ".docx", true, max_file_size + 1⟩ none
      = ⟨false, "Archivo demasiado grande: /up/b.docx", "", 0⟩ := by
  have h := claim_C3
    ⟨(false, ""), (false, ""), (false, ""), (false, ""), (false, ""), (false, "")⟩
    ⟨"/up", "b", ".docx", true, max_file_size + 1⟩ none rfl (Nat.lt_succ_self _)
  rw [h]; decide

/-- C4: in both per-extension strategy lists — the `.docx` list of
`_convert_docx` and the `.doc` list of `_convert_doc_enhanced` — if the
`i`-th strategy succeeds and every earlier one fails, the loop stops there:
exactly `i + 1` strategies are invoked (so no later strategy in the list
runs) and the overall result is that first success. -/
theorem claim_C4 (env : ConvEnv) :
    (∀ (i : Nat) (hi : i < (docx_methods env).length),
      ((docx_methods env).get ⟨i, hi⟩).1 = true →
      (∀ j (hj : j < (docx_methods env).length), j < i →
        ((docx_methods env).get ⟨j, hj⟩).1 = false) →
      convert_docx env = ((docx_methods env).get ⟨i, hi⟩, i + 1))
  ∧ (∀ (i : Nat) (hi : i < (doc_methods env).length),
      ((doc_methods env).get ⟨i, hi⟩).1 = true →
      (∀ j (hj : j < (doc_methods env).length), j < i →
        ((doc_methods env).get ⟨j, hj⟩).1 = false) →
      convert_doc_enhanced env = ((doc_methods env).get ⟨i, hi⟩, i + 1)) :=
  ⟨fun i hi hs hp => run_methods_first_success (docx_methods env) _ i hi hs hp,
   fun i hi hs hp => run_methods_first_success (doc_methods env) _ i hi hs hp⟩

/-- C4 witness: with pandoc failing and the docx-library strategy
succeeding, `_convert_docx` stops after two attempts and returns the second
outcome; with the online service succeeding, `_convert_doc_enhanced` stops
after one attempt. -/
theorem claim_C4_witness :
    convert_docx
      ⟨(false, "p fails"), (true, "docx ok"), (true, "online ok"),
       (false, ""), (false, ""), (false, "")⟩ = ((true, "docx ok"), 2)
  ∧ convert_doc_enhanced
      ⟨(false, "p fails"), (true, "docx ok"), (true, "online ok"),
       (false, ""), (false, ""), (false, "")⟩ = ((true, "online ok"), 1) := by
  constructor
  · have h := (claim_C4
      ⟨(false, "p fails"), (true, "docx ok"), (true, "online ok"),
       (false, ""), (false, ""), (false, "")⟩).1 1 (by decide) rfl
      (fun j hj hj1 => by
        have hj0 : j = 0 := Nat.lt_one_iff.mp hj1
        subst hj0; rfl)
    simpa using h
  · have h := (claim_C4
      ⟨(false, "p fails"), (true, "docx ok"), (true, "online ok"),
       (false, ""), (false, ""), (false, "")⟩).2 0 (by decide) rfl
      (fun j hj hj0 => absurd hj0 (Nat.not_lt_zero j))
    simpa using h

/-- C5 (counterexample): the claim says that on both batch paths exactly
one success yields a single-file download only. On the ZIP path
(`process_zip_file`, app.py lines 890-918) there is no single-file branch:
with exactly one successful result the rendered control is the ZIP bundle
button, not a single-file download. -/
theorem claim_C5_counterexample :
    successCount [⟨true, "Conversión exitosa con Pandoc", "/t/a.pdf", 1⟩] = 1
  ∧ process_zip_file_download [⟨true, "Conversión exitosa con Pandoc", "/t/a.pdf", 1⟩]
      = Download.bundleZip
  ∧ Download.bundleZip ≠ Download.singleFile := by
  refine ⟨rfl, rfl, by decide⟩

/-- C5 (amended): on the individual-upload path the thresholds hold as
claimed — zero successes give the overall failure signal and no download
control, exactly one success gives the single-file download only, and two
or more give the bundle download only. On the ZIP path, zero successes
likewise give the failure signal and no control, but any positive number
of successes — including exactly one — gives the bundle download only;
that path never renders a single-file control. Each path renders a single
control, so the two controls never appear together. -/
theorem claim_C5 (results : List ConvOutcome) :
    process_uploaded_files_download results
      = (if successCount results = 0 then Download.noControl
         else if successCount results = 1 then Download.singleFile
         else Download.bundleZip)
  ∧ process_zip_file_download results
      = (if successCount results = 0 then Download.noControl
         else Download.bundleZip)
  ∧ (process_uploaded_files_failure results = true ↔ successCount results = 0)
  ∧ (process_zip_file_failure results = true ↔ successCount results = 0) := by
  rcases h : successCount results with _ | n
  · simp [process_uploaded_files_download, process_zip_file_download,
      process_uploaded_files_failure, process_zip_file_failure, h]
  · rcases n with _ | m
    · simp [process_uploaded_files_download, process_zip_file_download,
        process_uploaded_files_failure, process_zip_file_failure, h]
    · have h0 : 0 < successCount results := by omega
      have h1 : successCount results ≠ 1 := by omega
      have h2 : successCount results ≠ 0 := by omega
      simp [process_uploaded_files_download, process_zip_file_download,
        process_uploaded_files_failure, process_zip_file_failure, h0, h1, h2]

/-- C6 (counterexample): the claim's premise is a recursion toggle that the
code does not have: `process_zip_folder` walks the extracted tree with
`rglob('*')` (app.py line 579), which always recurses. A ZIP holding
`x.txt` and `y.docx` at its root plus `notes.txt` inside a subfolder
produces three result records — the subfolder entry is not excluded by its
location. -/
theorem claim_C6_counterexample :
    dictKeys (process_zip_folder "/t"
      (fun _ => ⟨(false, ""), (false, ""), (false, ""), (false, ""),
        (false, ""), (false, "")⟩)
      [⟨[], "x", ".txt", true, 5⟩, ⟨[], "y", ".docx", true, 5⟩,
       ⟨["sub"], "notes", ".txt", true, 5⟩] none none)
      = ["x.txt", "y.docx", "notes.txt"] := by
  rfl

/-- C6 (amended): `process_zip_folder` has no "subfolder search disabled"
mode — it always recurses into subdirectories. Whether an entry is
processed depends only on its being a regular file with a supported
extension, never on its directory; the spec's scenario (`x.txt` and
`y.docx` at the root plus `notes.md` in a subfolder) yields exactly the two
records `x.txt` and `y.docx` because `.md` is not in the allow-list, not
because of the subfolder location. -/
theorem claim_C6 :
    (∀ (tempDir : String) (envOf : ZipEntry → ConvEnv),
      dictKeys (process_zip_folder tempDir envOf
        [⟨[], "x", ".txt", true, 5⟩, ⟨[], "y", ".docx", true, 5⟩,
         ⟨["sub"], "notes", ".md", true, 5⟩] none none) = ["x.txt", "y.docx"])
  ∧ (∀ (e : ZipEntry) (d : List String),
      entrySelected { e with dirs := d } = entrySelected e)
  ∧ (∀ (tempDir : String) (envOf : ZipEntry → ConvEnv)
      (entries : List ZipEntry) (odir : Option String),
      dictKeys (process_zip_folder tempDir envOf entries odir none)
        = ((entries.filter entrySelected).map zipEntryName).foldl keyStep []) :=
  ⟨fun tempDir envOf => by rw [process_zip_folder_keys]; rfl,
   fun e d => rfl,
   fun tempDir envOf entries odir => process_zip_folder_keys tempDir envOf entries odir⟩

/-- C7: whenever opening or extracting the archive raises (a corrupt or
unreadable ZIP), `process_zip_folder` returns exactly the single aggregate
`'ZIP Processing'` failure entry — no per-entry result is produced,
whatever the archive would have contained. -/
theorem claim_C7 (tempDir : String) (envOf : ZipEntry → ConvEnv)
    (entries : List ZipEntry) (odir : Option String) (msg : String) :
    process_zip_folder tempDir envOf entries odir (some msg)
      = [("ZIP Processing", ⟨false, "Error procesando ZIP: " ++ msg, "", 0⟩)]
  ∧ (process_zip_folder tempDir envOf entries odir (some msg)).length = 1 :=
  ⟨rfl, rfl⟩

/-- C10: `process_zip_folder` keys its results dict by `file_path.name`,
the entry's base name. Two supported entries named `x.txt` in different
subdirectories produce a single result record: the later-processed entry
overwrites the earlier one, and the result count (1) is smaller than the
number of matching entries (2). -/
theorem claim_C10 (tempDir : String) (envOf : ZipEntry → ConvEnv) (s1 s2 : Nat) :
    process_zip_folder tempDir envOf
      [⟨["a"], "x", ".txt", true, s1⟩, ⟨["b"], "x", ".txt", true, s2⟩] none none
      = [("x" ++ ".txt",
          convert_document (envOf ⟨["b"], "x", ".txt", true, s2⟩)
            (entryFileInfo tempDir ⟨["b"], "x", ".txt", true, s2⟩)
            (some (joinPath (entryFileInfo tempDir ⟨["b"], "x", ".txt", true, s2⟩).parent
              ("x" ++ ".pdf"))))]
  ∧ ([⟨["a"], "x", ".txt", true, s1⟩,
      ⟨["b"], "x", ".txt", true, s2⟩].filter entrySelected).length = 2
  ∧ (process_zip_folder tempDir envOf
      [⟨["a"], "x", ".txt", true, s1⟩, ⟨["b"], "x", ".txt", true, s2⟩]
      none none).length = 1 := by
  refine ⟨rfl, rfl, ?_⟩
  have h : process_zip_folder tempDir envOf
      [⟨["a"], "x", ".txt", true, s1⟩, ⟨["b"], "x", ".txt", true, s2⟩] none none
      = [("x" ++ ".txt",
          convert_document (envOf ⟨["b"], "x", ".txt", true, s2⟩)
            (entryFileInfo tempDir ⟨["b"], "x", ".txt", true, s2⟩)
            (some (joinPath (entryFileInfo tempDir ⟨["b"], "x", ".txt", true, s2⟩).parent
              ("x" ++ ".pdf"))))] := rfl
  rw [h]
  rfl

end Conversor
